import Mathlib

/-!
# Verification of the DeepWebResearcher research pipeline

Shallow embedding of the DeepWebResearcher pipeline (README.md code, the
frontend TypeScript under `Frontend/`, and — where the backend stage code is
not in the repository snapshot — stage models written from the specification,
each marked `Modelled from the spec:` in its doc comment).

Python/JS strings are modelled as `List Char`; stateful pipeline execution is
explicit state passing over a `ResearchState` record; fallible stages return
`Except`.
-/

namespace DeepWebResearcher

/-! ## String primitives (List Char models of Python/JS string operations) -/

/-- Python `str.split(". ")` specialised to the two-character separator `". "`:
splits at every non-overlapping, left-to-right occurrence of `". "`. -/
def splitDotSpace : List Char → List (List Char)
  | [] => [[]]
  | [c] => [[c]]
  | c₁ :: c₂ :: rest =>
    if c₁ = '.' ∧ c₂ = ' ' then [] :: splitDotSpace rest
    else
      match splitDotSpace (c₂ :: rest) with
      | [] => [[c₁]]
      | h :: t => (c₁ :: h) :: t

/-- Split a string into its lines (separator `'\n'`), as Python's
`str.split("\n")` does. -/
def splitLines : List Char → List (List Char)
  | [] => [[]]
  | c :: rest =>
    if c = '\n' then [] :: splitLines rest
    else
      match splitLines rest with
      | [] => [[c]]
      | h :: t => (c :: h) :: t

/-- Fuel-driven decimal digit accumulation; the fuel only serves structural
recursion and `natChars` always supplies enough of it (`n / 10 < n` for
`n ≥ 10`, so at most `n` steps are ever taken). -/
def natCharsAux : Nat → Nat → List Char
  | 0, _ => []
  | fuel + 1, n =>
    if n < 10 then [Char.ofNat (48 + n)]
    else natCharsAux fuel (n / 10) ++ [Char.ofNat (48 + n % 10)]

/-- Decimal rendering of a natural number, as Python's `f"{n}"` renders an
`int` (non-negative case). -/
def natChars (n : Nat) : List Char :=
  natCharsAux (n + 1) n

/-- Whitespace characters recognised by Python `str.strip()` / JS
`String.prototype.trim()` (ASCII subset, the ones these inputs can contain). -/
def isSpaceChar (c : Char) : Bool :=
  c = ' ' || c = '\n' || c = '\t' || c = '\r'

/-- Python `str.strip()` / JS `trim()`: drop leading and trailing whitespace. -/
def stripChars (s : List Char) : List Char :=
  ((s.dropWhile isSpaceChar).reverse.dropWhile isSpaceChar).reverse

/-! ## Data model -/

/-- `importance` of a claim: the valid enum values `high`/`medium`/`low`. -/
inductive Importance
  | high
  | medium
  | low
  deriving DecidableEq

/-- A claim extracted from the research narrative: `statement` plus a valid
`importance` value. -/
structure Claim where
  statement : List Char
  importance : Importance
  deriving DecidableEq

/-- One verification result. The `verification_data` field is the formatted
`"Source: ..."` text block that `verify_claim` (README lines 193–205) builds
from the claim's own search results and that `extract_references` reads back;
the remaining fields are the structured credibility judgement. A Python dict
missing `verification_data` is modelled by the empty string (the `.get`
default). -/
structure VerificationResult where
  claim : List Char
  reliability_score : Int
  issues : List (List Char)
  verification_sources : List (List Char)
  verification_data : List Char
  deriving DecidableEq

/-! ## ReferenceCollector: `extract_references` (README lines 210–218)

```python
def extract_references(verification_results):
    references = []
    for i, result in enumerate(verification_results, 1):
        verification_data = result.get("verification_data", "")
        sources = re.findall(r"Source: (https?://[^\n]+)", verification_data)
        for source in sources:
            if source not in [ref.split(". ")[1] for ref in references]:
                references.append(f"{len(references) + 1}. {source}")
    return references
```
-/

/-- The regex match of `Source: (https?://[^\n]+)` within one line: the first
position where `"Source: http://"` or `"Source: https://"` occurs with at
least one further character on the line (the `[^\n]+` requires a non-empty
tail after the scheme); the captured group runs from the scheme to the end of
the line, i.e. everything after the 8-character `"Source: "` prefix. -/
def findSourceInLine : List Char → Option (List Char)
  | [] => none
  | c :: rest =>
    if ("Source: http://".data.isPrefixOf (c :: rest) ∧ 16 ≤ (c :: rest).length)
        ∨ ("Source: https://".data.isPrefixOf (c :: rest) ∧ 17 ≤ (c :: rest).length)
    then some ((c :: rest).drop 8)
    else findSourceInLine rest

/-- `re.findall(r"Source: (https?://[^\n]+)", s)`: since the pattern cannot
cross a newline and a match consumes the rest of its line, this is the
per-line first match, over the lines of `s` in order. -/
def findSources (s : List Char) : List (List Char) :=
  (splitLines s).filterMap findSourceInLine

/-- Python `ref.split(". ")[1]` as used in the dedup test of
`extract_references` (total-ised with `getD`; every appended reference
contains `". "`, so the default is never reached on reachable inputs). -/
def refUrlPart (ref : List Char) : List Char :=
  (splitDotSpace ref).getD 1 []

/-- The body of the inner `for source in sources:` loop of
`extract_references`. -/
def addSource (references : List (List Char)) (source : List Char) : List (List Char) :=
  if source ∈ references.map refUrlPart then references
  else references ++ [natChars (references.length + 1) ++ '.' :: ' ' :: source]

/-- `extract_references` (README lines 210–218): the nested loops over
results and their regex-extracted sources, threading the `references`
accumulator. The `enumerate` index `i` is unused by the Python body. -/
def extract_references (verification_results : List VerificationResult) : List (List Char) :=
  verification_results.foldl
    (fun references result => (findSources result.verification_data).foldl addSource references)
    []

/-! ### Specification-side description of the reference list -/

/-- The rendered reference entry number `k` for URL `u`: the string
`"{k}. {u}"`. -/
def renderRef (k : Nat) (u : List Char) : List Char :=
  natChars k ++ '.' :: ' ' :: u

/-- Render a URL list as reference entries numbered consecutively from `k`. -/
def renderFrom (k : Nat) : List (List Char) → List (List Char)
  | [] => []
  | u :: us => renderRef k u :: renderFrom (k + 1) us

/-- The distinct elements of a list in first-seen order, those already in
`seen` excluded. -/
def firstSeenAux (seen : List (List Char)) : List (List Char) → List (List Char)
  | [] => []
  | s :: rest =>
    if s ∈ seen then firstSeenAux seen rest
    else s :: firstSeenAux (seen ++ [s]) rest

/-- All URLs surfaced across `verification_results`, in result order and, per
result, in line order of its `verification_data` — the scan order of
`extract_references`. -/
def sourcesOf (verification_results : List VerificationResult) : List (List Char) :=
  (verification_results.map fun r => findSources r.verification_data).flatten

/-- A string containing no occurrence of `". "`, the precondition under which
the `ref.split(". ")[1]` projection of `extract_references` recovers a URL
exactly. -/
def noDotSpace (s : List Char) : Prop :=
  splitDotSpace s = [s]

instance (s : List Char) : Decidable (noDotSpace s) := by
  unfold noDotSpace; infer_instance

/-! ### Lemmas about the string primitives -/

lemma digitChar_ne_dot {d : Nat} (hd : d < 10) : Char.ofNat (48 + d) ≠ '.' := by
  interval_cases d <;> decide

lemma not_dot_mem_natCharsAux (fuel : Nat) : ∀ n : Nat, '.' ∉ natCharsAux fuel n := by
  induction fuel with
  | zero => intro n h; simp [natCharsAux] at h
  | succ fuel ih =>
    intro n h
    by_cases hn : n < 10
    · simp [natCharsAux, hn] at h
      exact digitChar_ne_dot hn h.symm
    · simp [natCharsAux, hn] at h
      rcases h with h | h
      · exact ih (n / 10) h
      · exact digitChar_ne_dot (Nat.mod_lt n (by decide)) h.symm

lemma not_dot_mem_natChars (n : Nat) : '.' ∉ natChars n :=
  not_dot_mem_natCharsAux (n + 1) n

/-- Splitting on `". "` passes unchanged through a prefix containing no dot
and then breaks at an explicit `". "`. -/
lemma splitDotSpace_append {a : List Char} (ha : '.' ∉ a) (u : List Char) :
    splitDotSpace (a ++ '.' :: ' ' :: u) = a :: splitDotSpace u := by
  induction a with
  | nil => simp [splitDotSpace]
  | cons c a' ih =>
    have hc : c ≠ '.' := fun h => ha (h ▸ List.mem_cons_self c a')
    have ha' : '.' ∉ a' := fun h => ha (List.mem_cons_of_mem c h)
    cases a' with
    | nil =>
      simp only [List.nil_append, List.cons_append]
      rw [splitDotSpace]
      simp [hc, splitDotSpace]
    | cons c₂ a'' =>
      simp only [List.cons_append] at ih ⊢
      rw [splitDotSpace, if_neg (fun h => hc h.1), ih ha']

lemma refUrlPart_renderRef {u : List Char} (hu : noDotSpace u) (k : Nat) :
    refUrlPart (renderRef k u) = u := by
  unfold refUrlPart renderRef
  rw [splitDotSpace_append (not_dot_mem_natChars k) u, hu]
  rfl

/-! ### Lemmas about rendering and first-seen deduplication -/

lemma renderFrom_length (us : List (List Char)) : ∀ k, (renderFrom k us).length = us.length := by
  induction us with
  | nil => intro k; rfl
  | cons u us ih => intro k; simp [renderFrom, ih]

lemma renderFrom_map_refUrlPart {us : List (List Char)} (hus : ∀ u ∈ us, noDotSpace u) :
    ∀ k, (renderFrom k us).map refUrlPart = us := by
  induction us with
  | nil => intro k; rfl
  | cons u us ih =>
    intro k
    have h₁ := hus u (List.mem_cons_self u us)
    have h₂ : ∀ u ∈ us, noDotSpace u := fun v hv => hus v (List.mem_cons_of_mem u hv)
    simp [renderFrom, refUrlPart_renderRef h₁, ih h₂]

lemma renderFrom_append (s : List Char) (us : List (List Char)) :
    ∀ k, renderFrom k (us ++ [s]) = renderFrom k us ++ [renderRef (k + us.length) s] := by
  induction us with
  | nil => intro k; simp [renderFrom]
  | cons u us ih =>
    intro k
    rw [List.cons_append, renderFrom, ih (k + 1), renderFrom, List.cons_append]
    have h : k + 1 + us.length = k + (u :: us).length := by simp; omega
    rw [h]

lemma renderFrom_get? (us : List (List Char)) :
    ∀ k i, (renderFrom k us).get? i = (us.get? i).map fun u => renderRef (k + i) u := by
  induction us with
  | nil => intro k i; simp [renderFrom]
  | cons u us ih =>
    intro k i
    cases i with
    | zero => simp [renderFrom]
    | succ i =>
      simp only [renderFrom, List.get?_cons_succ, ih (k + 1) i]
      have h : k + 1 + i = k + (i + 1) := by omega
      rw [h]

lemma mem_firstSeenAux {s : List Char} (l : List (List Char)) :
    ∀ seen, s ∈ firstSeenAux seen l ↔ s ∈ l ∧ s ∉ seen := by
  induction l with
  | nil => intro seen; simp [firstSeenAux]
  | cons x rest ih =>
    intro seen
    by_cases hx : x ∈ seen
    · rw [firstSeenAux, if_pos hx, ih seen, List.mem_cons]
      constructor
      · tauto
      · rintro ⟨rfl | h₁, h₂⟩
        · exact absurd hx h₂
        · exact ⟨h₁, h₂⟩
    · rw [firstSeenAux, if_neg hx, List.mem_cons, ih (seen ++ [x])]
      simp only [List.mem_append, List.mem_singleton, List.mem_cons]
      by_cases hsx : s = x
      · subst hsx; tauto
      · tauto

lemma nodup_firstSeenAux (l : List (List Char)) :
    ∀ seen, (firstSeenAux seen l).Nodup := by
  induction l with
  | nil => intro seen; simp [firstSeenAux]
  | cons x rest ih =>
    intro seen
    by_cases hx : x ∈ seen
    · rw [firstSeenAux, if_pos hx]; exact ih seen
    · rw [firstSeenAux, if_neg hx]
      refine List.nodup_cons.mpr ⟨?_, ih (seen ++ [x])⟩
      intro hmem
      have := (mem_firstSeenAux rest (seen ++ [x])).mp hmem
      exact this.2 (List.mem_append.mpr (Or.inr (List.mem_singleton.mpr rfl)))

/-! ### The main characterization of `extract_references` -/

/-- Invariant of the source-scanning loop: starting from an accumulator that
renders the URL list `urls` (all free of `". "`), folding `addSource` over
further `". "`-free sources appends exactly the not-yet-seen ones, numbered
consecutively. -/
lemma foldl_addSource (sources : List (List Char)) :
    ∀ urls : List (List Char), (∀ u ∈ urls, noDotSpace u) → (∀ s ∈ sources, noDotSpace s) →
      List.foldl addSource (renderFrom 1 urls) sources
        = renderFrom 1 (urls ++ firstSeenAux urls sources) := by
  induction sources with
  | nil => intro urls _ _; simp [firstSeenAux]
  | cons s rest ih =>
    intro urls hurls hsources
    have hs : noDotSpace s := hsources s (List.mem_cons_self s rest)
    have hrest : ∀ t ∈ rest, noDotSpace t := fun t ht => hsources t (List.mem_cons_of_mem s ht)
    rw [List.foldl_cons]
    by_cases hmem : s ∈ urls
    · have : addSource (renderFrom 1 urls) s = renderFrom 1 urls := by
        unfold addSource
        rw [renderFrom_map_refUrlPart hurls 1, if_pos hmem]
      rw [this, ih urls hurls hrest, firstSeenAux, if_pos hmem]
    · have hlen : (renderFrom 1 urls).length = urls.length := renderFrom_length urls 1
      have : addSource (renderFrom 1 urls) s = renderFrom 1 (urls ++ [s]) := by
        unfold addSource
        rw [renderFrom_map_refUrlPart hurls 1, if_neg hmem, hlen,
          renderFrom_append s urls 1, Nat.add_comm 1 urls.length]
        rfl
      rw [this, ih (urls ++ [s]) ?_ hrest, firstSeenAux, if_neg hmem, List.append_assoc]
      · rfl
      · intro u hu
        rcases List.mem_append.mp hu with h | h
        · exact hurls u h
        · rw [List.mem_singleton.mp h]; exact hs

/-- `extract_references` is the fold of `addSource` over the flat list of all
scanned sources. -/
lemma extract_references_eq_foldl (verification_results : List VerificationResult) :
    extract_references verification_results
      = List.foldl addSource [] (sourcesOf verification_results) := by
  unfold extract_references sourcesOf
  rw [List.foldl_flatten, List.foldl_map]

/-! ### Claim C1 -/

/-- **C1 counterexample**: on a `verification_results` input whose scanned
source URL contains `". "` (the regex `[^\n]+` admits such captures), the
reference list produced by `extract_references` holds the SAME URL
`https://a. b` twice, under indices 1 and 2, although only one distinct URL
occurs: the dedup test compares against `ref.split(". ")[1]`, which truncates
a stored URL at its own `". "`. This refutes the claim as stated. -/
theorem extract_references_duplicate_url_counterexample :
    extract_references
        [{ claim := [], reliability_score := 0, issues := [], verification_sources := [],
           verification_data := ("Source: https://a. b\nSource: https://a. b").data }]
      = [renderRef 1 ("https://a. b").data, renderRef 2 ("https://a. b").data]
    ∧ firstSeenAux []
        (sourcesOf
          [{ claim := [], reliability_score := 0, issues := [], verification_sources := [],
             verification_data := ("Source: https://a. b\nSource: https://a. b").data }])
      = [("https://a. b").data] := by
  decide

/-- **C1** (amended): provided no scanned source URL contains the substring
`". "`, the references produced by `extract_references` are exactly the
distinct URLs across all scanned `Source:` lines (first-seen order, scanning
results in claim order), with no two entries sharing a URL and entry `i`
(0-based) carrying the contiguous 1-based index `i + 1`; the index range is
therefore `1..N` with `N` the number of distinct URLs. -/
theorem extract_references_nodup_contiguous
    (verification_results : List VerificationResult)
    (hclean : ∀ s ∈ sourcesOf verification_results, noDotSpace s) :
    extract_references verification_results
        = renderFrom 1 (firstSeenAux [] (sourcesOf verification_results))
    ∧ (firstSeenAux [] (sourcesOf verification_results)).Nodup
    ∧ (∀ s, s ∈ firstSeenAux [] (sourcesOf verification_results)
          ↔ s ∈ sourcesOf verification_results)
    ∧ ∀ i, (extract_references verification_results).get? i
          = ((firstSeenAux [] (sourcesOf verification_results)).get? i).map
              fun u => renderRef (i + 1) u := by
  have h₁ : extract_references verification_results
      = renderFrom 1 (firstSeenAux [] (sourcesOf verification_results)) := by
    rw [extract_references_eq_foldl]
    have h := foldl_addSource (sourcesOf verification_results) []
      (by intro u hu; cases hu) hclean
    simpa [renderFrom] using h
  refine ⟨h₁, nodup_firstSeenAux _ [], ?_, ?_⟩
  · intro s
    rw [mem_firstSeenAux]
    simp
  · intro i
    rw [h₁, renderFrom_get?, Nat.add_comm 1 i]

/-- Witness for the amended C1: a concrete two-result run with a URL shared
across claims; the hypothesis and the produced reference list evaluate
concretely. -/
theorem extract_references_nodup_contiguous_witness :
    (∀ s ∈ sourcesOf
        [{ claim := [], reliability_score := 8, issues := [], verification_sources := [],
           verification_data :=
            ("Source: https://a.com/x\nTitle: t\nSource: https://b.org/y").data },
         { claim := [], reliability_score := 5, issues := [], verification_sources := [],
           verification_data := ("Source: https://a.com/x\nSource: https://c.net").data }],
      noDotSpace s)
    ∧ (extract_references
          [{ claim := [], reliability_score := 8, issues := [], verification_sources := [],
             verification_data :=
              ("Source: https://a.com/x\nTitle: t\nSource: https://b.org/y").data },
           { claim := [], reliability_score := 5, issues := [], verification_sources := [],
             verification_data := ("Source: https://a.com/x\nSource: https://c.net").data }]
          = renderFrom 1 (firstSeenAux [] (sourcesOf
              [{ claim := [], reliability_score := 8, issues := [], verification_sources := [],
                 verification_data :=
                  ("Source: https://a.com/x\nTitle: t\nSource: https://b.org/y").data },
               { claim := [], reliability_score := 5, issues := [], verification_sources := [],
                 verification_data := ("Source: https://a.com/x\nSource: https://c.net").data }]))
        ∧ (firstSeenAux [] (sourcesOf
            [{ claim := [], reliability_score := 8, issues := [], verification_sources := [],
               verification_data :=
                ("Source: https://a.com/x\nTitle: t\nSource: https://b.org/y").data },
             { claim := [], reliability_score := 5, issues := [], verification_sources := [],
               verification_data := ("Source: https://a.com/x\nSource: https://c.net").data }])).Nodup
        ∧ (∀ s, s ∈ firstSeenAux [] (sourcesOf
              [{ claim := [], reliability_score := 8, issues := [], verification_sources := [],
                 verification_data :=
                  ("Source: https://a.com/x\nTitle: t\nSource: https://b.org/y").data },
               { claim := [], reliability_score := 5, issues := [], verification_sources := [],
                 verification_data := ("Source: https://a.com/x\nSource: https://c.net").data }])
              ↔ s ∈ sourcesOf
                [{ claim := [], reliability_score := 8, issues := [], verification_sources := [],
                   verification_data :=
                    ("Source: https://a.com/x\nTitle: t\nSource: https://b.org/y").data },
                 { claim := [], reliability_score := 5, issues := [], verification_sources := [],
                   verification_data := ("Source: https://a.com/x\nSource: https://c.net").data }])
        ∧ ∀ i, (extract_references
              [{ claim := [], reliability_score := 8, issues := [], verification_sources := [],
                 verification_data :=
                  ("Source: https://a.com/x\nTitle: t\nSource: https://b.org/y").data },
               { claim := [], reliability_score := 5, issues := [], verification_sources := [],
                 verification_data := ("Source: https://a.com/x\nSource: https://c.net").data }]).get? i
            = ((firstSeenAux [] (sourcesOf
                [{ claim := [], reliability_score := 8, issues := [], verification_sources := [],
                   verification_data :=
                    ("Source: https://a.com/x\nTitle: t\nSource: https://b.org/y").data },
                 { claim := [], reliability_score := 5, issues := [], verification_sources := [],
                   verification_data :=
                    ("Source: https://a.com/x\nSource: https://c.net").data }])).get? i).map
                fun u => renderRef (i + 1) u) :=
  ⟨by decide,
   extract_references_nodup_contiguous
     [{ claim := [], reliability_score := 8, issues := [], verification_sources := [],
        verification_data :=
         ("Source: https://a.com/x\nTitle: t\nSource: https://b.org/y").data },
      { claim := [], reliability_score := 5, issues := [], verification_sources := [],
        verification_data := ("Source: https://a.com/x\nSource: https://c.net").data }]
     (by decide)⟩

/-! ### Claim C8 -/

/-- **C8**: the ReferenceCollector is a pure function of
`verification_results` — it reads only the `verification_data` fields and
performs no external calls, so any two inputs agreeing on those fields (in
particular, the same input on a re-run) yield identical reference lists. -/
theorem extract_references_pure (vr₁ vr₂ : List VerificationResult)
    (h : vr₁.map (fun r => r.verification_data) = vr₂.map fun r => r.verification_data) :
    extract_references vr₁ = extract_references vr₂ := by
  rw [extract_references_eq_foldl, extract_references_eq_foldl]
  unfold sourcesOf
  have h₂ : vr₁.map (fun r => findSources r.verification_data)
      = vr₂.map fun r => findSources r.verification_data := by
    have h₃ := congrArg (List.map findSources) h
    simpa [List.map_map, Function.comp] using h₃
  rw [h₂]

/-- Witness for C8: two result lists that differ in every judgement field but
agree on `verification_data` produce the same references. -/
theorem extract_references_pure_witness :
    ([{ claim := ("c1").data, reliability_score := 9, issues := [], verification_sources := [],
        verification_data := ("Source: https://a.com/x").data } ].map
          (fun r : VerificationResult => r.verification_data)
      = [{ claim := ("c2").data, reliability_score := -1, issues := [("down").data],
           verification_sources := [("https://z.me").data],
           verification_data := ("Source: https://a.com/x").data } ].map
          fun r : VerificationResult => r.verification_data)
    ∧ extract_references
        [{ claim := ("c1").data, reliability_score := 9, issues := [], verification_sources := [],
           verification_data := ("Source: https://a.com/x").data }]
      = extract_references
        [{ claim := ("c2").data, reliability_score := -1, issues := [("down").data],
           verification_sources := [("https://z.me").data],
           verification_data := ("Source: https://a.com/x").data }] :=
  ⟨by decide,
   extract_references_pure
     [{ claim := ("c1").data, reliability_score := 9, issues := [], verification_sources := [],
        verification_data := ("Source: https://a.com/x").data }]
     [{ claim := ("c2").data, reliability_score := -1, issues := [("down").data],
        verification_sources := [("https://z.me").data],
        verification_data := ("Source: https://a.com/x").data }]
     (by decide)⟩

/-! ## Content style mappings

`select_content_style` from README lines 225–227; the two category mappings
from `Frontend/src/lib/utils.ts`. JS `toLowerCase` is modelled as ASCII
`Char.toLower`; every compared literal is ASCII. -/

/-- `select_content_style` (README lines 225–227): Python
`styles.get(style_number, "blog post")` over `{1,2,3}`. -/
def select_content_style (style_number : Int) : List Char :=
  if style_number = 1 then ("blog post").data
  else if style_number = 2 then ("detailed report").data
  else if style_number = 3 then ("executive summary").data
  else ("blog post").data

/-- JS `toLowerCase` (ASCII model). -/
def toLowerChars (s : List Char) : List Char :=
  s.map Char.toLower

/-- `mapContentStyleToCategory` (utils.ts lines 9–20): switch on the
lower-cased backend style, defaulting to `blog-style`. -/
def mapContentStyleToCategory (contentStyle : List Char) : List Char :=
  if toLowerChars contentStyle = ("blog post").data then ("blog-style").data
  else if toLowerChars contentStyle = ("detailed report").data then ("detailed-report").data
  else if toLowerChars contentStyle = ("executive summary").data then ("executive-summary").data
  else ("blog-style").data

/-- `mapCategoryToStyleNumber` (utils.ts lines 23–34): switch on the frontend
category, defaulting to `1`. -/
def mapCategoryToStyleNumber (category : List Char) : Int :=
  if category = ("blog-style").data then 1
  else if category = ("detailed-report").data then 2
  else if category = ("executive-summary").data then 3
  else 1

/-! ### Claim C9 -/

/-- **C9**: the frontend/backend style mappings round-trip on the three
recognized categories, and each of the three functions maps every
unrecognized input to its blog default (`blog-style` / `1` / `"blog post"`),
so all three are total. -/
theorem style_mappings_roundtrip :
    (∀ category ∈ [("blog-style").data, ("detailed-report").data, ("executive-summary").data],
        mapContentStyleToCategory (select_content_style (mapCategoryToStyleNumber category))
          = category)
    ∧ (∀ category : List Char,
        category ∉ [("blog-style").data, ("detailed-report").data, ("executive-summary").data] →
          mapCategoryToStyleNumber category = 1)
    ∧ (∀ n : Int, n ≠ 1 → n ≠ 2 → n ≠ 3 → select_content_style n = ("blog post").data)
    ∧ (∀ s : List Char,
        toLowerChars s
            ∉ [("blog post").data, ("detailed report").data, ("executive summary").data] →
          mapContentStyleToCategory s = ("blog-style").data) := by
  refine ⟨by decide, ?_, ?_, ?_⟩
  · intro c hc
    simp only [List.mem_cons, List.not_mem_nil, or_false, not_or] at hc
    obtain ⟨h₁, h₂, h₃⟩ := hc
    unfold mapCategoryToStyleNumber
    rw [if_neg h₁, if_neg h₂, if_neg h₃]
  · intro n h₁ h₂ h₃
    unfold select_content_style
    rw [if_neg h₁, if_neg h₂, if_neg h₃]
  · intro s hs
    simp only [List.mem_cons, List.not_mem_nil, or_false, not_or] at hs
    obtain ⟨h₁, h₂, h₃⟩ := hs
    unfold mapContentStyleToCategory
    rw [if_neg h₁, if_neg h₂, if_neg h₃]

/-- Witness for C9: one concrete instantiation of each conjunct. -/
theorem style_mappings_roundtrip_witness :
    mapContentStyleToCategory
        (select_content_style (mapCategoryToStyleNumber ("detailed-report").data))
        = ("detailed-report").data
    ∧ mapCategoryToStyleNumber ("banana").data = 1
    ∧ select_content_style 7 = ("blog post").data
    ∧ mapContentStyleToCategory ("weird input").data = ("blog-style").data :=
  ⟨style_mappings_roundtrip.1 ("detailed-report").data (by decide),
   style_mappings_roundtrip.2.1 ("banana").data (by decide),
   style_mappings_roundtrip.2.2.1 7 (by decide) (by decide) (by decide),
   style_mappings_roundtrip.2.2.2 ("weird input").data (by decide)⟩

/-! ## Frontend query guards

`handleSearchSubmit` (HomePage), `handleEditorSearch` (App.tsx lines
489–517), `handleSubmit` (SearchHub.tsx lines 218–227). Each handler is
modelled by the externally visible action it takes; `none` / `noAction`
models the early return. -/

/-- JS truthiness of an optional string (`undefined` and `""` are falsy). -/
def jsTruthy : Option (List Char) → Bool
  | none => false
  | some s => !s.isEmpty

/-- `handleSearchSubmit` (HomePage): the `startResearch(fullQuery,
styleNumber)` call it performs, `none` when it returns early on
`!query.trim()`. -/
def handleSearchSubmit (query : List Char) (styleNumber : Int)
    (additionalInfo : Option (List Char)) : Option (List Char × Int) :=
  if stripChars query = [] then none
  else if jsTruthy additionalInfo then
    some (query ++ ("\n\nAdditional context: ").data ++ additionalInfo.getD [], styleNumber)
  else some (query, styleNumber)

/-- `handleEditorSearch` (App.tsx lines 489–517): the `startResearch` call it
performs, `none` on the `!query.trim()` early return; the category is mapped
inline (`blog-style` → 1, `detailed-report` → 2, anything else → 3). -/
def handleEditorSearch (query category additionalInfo : List Char) :
    Option (List Char × Int) :=
  if stripChars query = [] then none
  else
    some
      ((if additionalInfo.isEmpty then query
        else query ++ ("\n\nAdditional context: ").data ++ additionalInfo),
       if category = ("blog-style").data then 1
       else if category = ("detailed-report").data then 2
       else (3 : Int))

/-- The UI action taken by SearchHub's `handleSubmit`. -/
inductive HubAction
  | showAlertDialog
  | showAdditionalInfoDialog
  | noAction
  deriving DecidableEq

/-- `handleSubmit` (SearchHub.tsx lines 218–227): without a selected category
it opens the alert dialog; with one, it opens the additional-info submission
dialog only when `searchText.trim()` is truthy and not loading. -/
def handleSubmit (selectedCategory : Option Int) (searchText : List Char)
    (isLoading : Bool) : HubAction :=
  match selectedCategory with
  | none => HubAction.showAlertDialog
  | some _ =>
    if stripChars searchText ≠ [] ∧ isLoading = false then HubAction.showAdditionalInfoDialog
    else HubAction.noAction

/-! ### Claim C10 -/

/-- **C10**: the frontend never starts a research run with an empty or
whitespace-only query — `handleSearchSubmit` and `handleEditorSearch` return
without invoking `startResearch` when the trimmed query is empty, and
SearchHub's `handleSubmit` opens the submission dialog only when the entered
search text trims to non-empty. -/
theorem empty_query_never_starts_research :
    (∀ (query : List Char) (styleNumber : Int) (additionalInfo : Option (List Char)),
        stripChars query = [] → handleSearchSubmit query styleNumber additionalInfo = none)
    ∧ (∀ query category additionalInfo : List Char,
        stripChars query = [] → handleEditorSearch query category additionalInfo = none)
    ∧ (∀ (selectedCategory : Option Int) (searchText : List Char) (isLoading : Bool),
        handleSubmit selectedCategory searchText isLoading = HubAction.showAdditionalInfoDialog →
          stripChars searchText ≠ []) := by
  refine ⟨?_, ?_, ?_⟩
  · intro query styleNumber additionalInfo h
    unfold handleSearchSubmit
    rw [if_pos h]
  · intro query category additionalInfo h
    unfold handleEditorSearch
    rw [if_pos h]
  · intro selectedCategory searchText isLoading h
    cases selectedCategory with
    | none => exact absurd h (by simp [handleSubmit])
    | some n =>
      by_cases hc : stripChars searchText ≠ [] ∧ isLoading = false
      · exact hc.1
      · rw [handleSubmit, if_neg hc] at h
        exact absurd h (by simp)

/-- Witness for C10: a whitespace-only query is rejected by all three
handlers. -/
theorem empty_query_never_starts_research_witness :
    stripChars ("  \n ").data = []
    ∧ handleSearchSubmit ("  \n ").data 1 (some ("extra").data) = none
    ∧ handleEditorSearch ("  \n ").data ("blog-style").data [] = none
    ∧ stripChars ("remote work").data ≠ []
    ∧ handleSubmit (some 2) ("remote work").data false = HubAction.showAdditionalInfoDialog :=
  ⟨by decide,
   empty_query_never_starts_research.1 ("  \n ").data 1 (some ("extra").data) (by decide),
   empty_query_never_starts_research.2.1 ("  \n ").data ("blog-style").data [] (by decide),
   empty_query_never_starts_research.2.2 (some 2) ("remote work").data false (by decide),
   by decide⟩

/-! ## Research gathering and claim extraction -/

/-- One web search result triple `{url, title, content}` returned by the
search service. -/
structure SearchResult where
  url : List Char
  title : List Char
  content : List Char
  deriving DecidableEq

/-- Modelled from the spec: the explicit "insufficient source material"
degraded narrative token (§4.2); the backend stage functions around the
README snippets are not in the repository snapshot. -/
def insufficientMarker : List Char :=
  ("insufficient source material").data

/-- Modelled from the spec: the `conduct_research` stage — one search, then
one completion call summarising the full result set
(`summarize_search_results`, README lines 152–164); with zero search results
the stage does not fabricate content and surfaces the degraded marker
instead. `summary` is the narrative the completion service returns in the
non-empty case. -/
def conduct_research (search_results : List SearchResult) (summary : List Char) : List Char :=
  if search_results = [] then insufficientMarker else summary

/-- A raw entry of the structured claim list returned by the completion
service; either field may be missing (the `JsonOutputParser` output is
untyped). -/
structure RawEntry where
  claim : Option (List Char)
  importance : Option (List Char)
  deriving DecidableEq

/-- Parse a raw importance string into the valid enum `{high, medium, low}`. -/
def parseImportance (s : List Char) : Option Importance :=
  if s = ("high").data then some Importance.high
  else if s = ("medium").data then some Importance.medium
  else if s = ("low").data then some Importance.low
  else none

/-- Modelled from the spec (§4.3 parsing contract): an entry is kept only if
both fields are present and the importance is a valid enum value; malformed
entries are dropped rather than failing the stage. -/
def validateEntry (e : RawEntry) : Option Claim :=
  match e.claim, e.importance with
  | some s, some imp => (parseImportance imp).map fun i => { statement := s, importance := i }
  | _, _ => none

/-- Modelled from the spec: the `extract_key_claims` stage (`extract_claims`,
README lines 171–188, shows only the extraction chain). On the degraded
research output it returns no claims rather than inventing them; otherwise it
keeps the valid entries of the parsed completion output. -/
def extract_key_claims (research_output : List Char) (parsed : List RawEntry) : List Claim :=
  if research_output = insufficientMarker then []
  else parsed.filterMap validateEntry

/-! ## Query optimization -/

/-- Modelled from the spec: the `optimize_query` stage wraps the
`optimize_query_directly` chain (README lines 130–147) with the §4.1
fallback — an empty or whitespace-only completion result falls back to the
original query unchanged rather than failing the run. `completion` is the
text the completion service returned. -/
def optimize_query_stage (original_query completion : List Char) : List Char :=
  if stripChars completion = [] then original_query else completion

/-! ## Claim verification -/

/-- Modelled from the spec (§4.4): the sentinel VerificationResult recording
an irrecoverable per-claim verification failure — `reliability_score = -1`
and an `issues` entry describing the failure. -/
def sentinelResult (c : Claim) : VerificationResult :=
  { claim := c.statement
    reliability_score := -1
    issues := [("Claim verification failed after exhausting retries").data]
    verification_sources := []
    verification_data := [] }

/-- Modelled from the spec (§4.4 partial failure): verify the claims from
index `i` on; claim slots whose verification fails irrecoverably (`fails`)
receive the sentinel, every other slot its judged result (`verify` models the
per-claim search + completion judgement of `verify_claim`, README lines
193–205). -/
def verifyFrom (verify : Claim → VerificationResult) (fails : Nat → Bool) :
    Nat → List Claim → List VerificationResult
  | _, [] => []
  | i, c :: rest =>
    (if fails i then sentinelResult c else verify c) :: verifyFrom verify fails (i + 1) rest

/-- The claim-verification stage output with per-claim failure recovery. -/
def verify_claims_with_failures (verify : Claim → VerificationResult) (fails : Nat → Bool)
    (claims : List Claim) : List VerificationResult :=
  verifyFrom verify fails 0 claims

/-- Modelled from the spec (§4.4 concurrency): the fan-out runs one
verification task per claim; `order` is the order in which the concurrent
tasks happen to complete, and each completed task delivers its claim index
together with its result. -/
def verify_claims_fanout (verify : Claim → VerificationResult) (claims : List Claim)
    (order : List Nat) : List (Nat × VerificationResult) :=
  order.filterMap fun i => (claims.get? i).map fun c => (i, verify c)

/-- Modelled from the spec (§4.4): the fan-in re-sorts the completed tagged
results to align index-for-index with the input claims before they are
stored. -/
def fanin (claims : List Claim) (tagged : List (Nat × VerificationResult)) :
    List VerificationResult :=
  (List.range claims.length).filterMap fun i =>
    (tagged.find? fun p => p.1 == i).map fun p => p.2

/-! ## Pipeline orchestration

The LangGraph workflow (README lines 272–293) is the linear node sequence
`optimize_query → conduct_research → extract_key_claims → verify_claims →
generate_fact_check_report → create_draft_content`. The orchestrator's
status/failure discipline is modelled from the spec (§4.7, §7): a stage
either returns the updated state or a fatal error, and a fatal error stops
the pipeline and marks the run failed. -/

/-- The run status enum. -/
inductive Status
  | pending
  | running
  | completed
  | failed
  deriving DecidableEq

/-- The shared `ResearchState` record (README lines 72–83), with `status` as
the spec's enum. -/
structure ResearchState where
  query : List Char
  optimized_query : List Char
  research_output : List Char
  claims : List Claim
  verification_results : List VerificationResult
  references : List (List Char)
  fact_check_report : List Char
  content_style : List Char
  draft_content : List Char
  status : Status
  deriving DecidableEq

/-- Modelled from the spec: the behaviour of the two external services over
one run — the completion texts, the search outcome (either a fatal outage or
a result list), the parsed claim list, the per-claim judgement, which claim
verifications fail irrecoverably, and whether report and draft generation
succeed. -/
structure ExternalBehavior where
  optimize_completion : List Char
  research_error : Option (List Char)
  search_results : List SearchResult
  summary_completion : List Char
  claims_parsed : List RawEntry
  verify : Claim → VerificationResult
  fails : Nat → Bool
  report_completion : Except (List Char) (List Char)
  draft_completion : Except (List Char) (List Char)

/-- The `optimize_query` node: never fatal (§7 — optimizer failures are
always recovered locally by the fallback). -/
def optimize_stage (ext : ExternalBehavior) (st : ResearchState) :
    Except (List Char) ResearchState :=
  Except.ok { st with optimized_query := optimize_query_stage st.query ext.optimize_completion }

/-- The `conduct_research` node: fatal on a total search outage (§7),
degraded-but-successful on an empty result list. -/
def research_stage (ext : ExternalBehavior) (st : ResearchState) :
    Except (List Char) ResearchState :=
  match ext.research_error with
  | some e => Except.error e
  | none =>
    Except.ok
      { st with research_output := conduct_research ext.search_results ext.summary_completion }

/-- The `extract_key_claims` node: never fatal (an unusable claim list
degrades to "no fact-check performed", §4.3). -/
def claims_stage (ext : ExternalBehavior) (st : ResearchState) :
    Except (List Char) ResearchState :=
  Except.ok { st with claims := extract_key_claims st.research_output ext.claims_parsed }

/-- The `verify_claims` node: never fatal (per-claim failures are recovered
by the sentinel, §4.4). -/
def verify_stage (ext : ExternalBehavior) (st : ResearchState) :
    Except (List Char) ResearchState :=
  Except.ok
    { st with
      verification_results := verify_claims_with_failures ext.verify ext.fails st.claims }

/-- The `generate_fact_check_report` node: collects references from the
verification results and stores the report; fatal when report generation
fails (§7). -/
def report_stage (ext : ExternalBehavior) (st : ResearchState) :
    Except (List Char) ResearchState :=
  match ext.report_completion with
  | Except.error e => Except.error e
  | Except.ok rep =>
    Except.ok
      { st with
        references := extract_references st.verification_results
        fact_check_report := rep }

/-- `create_draft_content` (README lines 240–264): stores the drafted content
and sets `status = "completed"`. -/
def create_draft_content (draft : List Char) (st : ResearchState) : ResearchState :=
  { st with draft_content := draft, status := Status.completed }

/-- The `create_draft_content` node: fatal when drafting fails (§7),
otherwise the terminal stage that completes the run. -/
def draft_stage (ext : ExternalBehavior) (st : ResearchState) :
    Except (List Char) ResearchState :=
  match ext.draft_completion with
  | Except.error e => Except.error e
  | Except.ok d => Except.ok (create_draft_content d st)

/-- `create_research_workflow` (README lines 272–293): the linear node
sequence of the compiled graph. -/
def research_workflow (ext : ExternalBehavior) :
    List (ResearchState → Except (List Char) ResearchState) :=
  [optimize_stage ext, research_stage ext, claims_stage ext, verify_stage ext,
   report_stage ext, draft_stage ext]

/-- Run the stages in sequence; a fatal error stops the pipeline and marks
the run failed, keeping all state produced before the failing stage (§3
lifecycle). -/
def runStages : List (ResearchState → Except (List Char) ResearchState) → ResearchState →
    ResearchState
  | [], st => st
  | f :: rest, st =>
    match f st with
    | Except.ok st' => runStages rest st'
    | Except.error _ => { st with status := Status.failed }

/-- How many stages actually execute (the failing stage counts as executed;
stages after it never run). -/
def stagesExecuted : List (ResearchState → Except (List Char) ResearchState) → ResearchState →
    Nat
  | [], _ => 0
  | f :: rest, st =>
    match f st with
    | Except.ok st' => stagesExecuted rest st' + 1
    | Except.error _ => 1

/-- The status value observed before each stage and after the last one. -/
def statusTrace : List (ResearchState → Except (List Char) ResearchState) → ResearchState →
    List Status
  | [], st => [st.status]
  | f :: rest, st =>
    st.status ::
      (match f st with
        | Except.ok st' => statusTrace rest st'
        | Except.error _ => [Status.failed])

/-- Modelled from the spec (§4.7 orchestrator state machine): `running` is
entered once, atomically, before the first stage executes. -/
def runPipeline (ext : ExternalBehavior) (st0 : ResearchState) : ResearchState :=
  runStages (research_workflow ext) { st0 with status := Status.running }

/-- The full status trace of a run, starting from the initial status. -/
def pipelineTrace (ext : ExternalBehavior) (st0 : ResearchState) : List Status :=
  st0.status :: statusTrace (research_workflow ext) { st0 with status := Status.running }

/-- The number of workflow stages that execute during a run. -/
def pipelineStagesExecuted (ext : ExternalBehavior) (st0 : ResearchState) : Nat :=
  stagesExecuted (research_workflow ext) { st0 with status := Status.running }

/-- The legal status transitions (§3): stay, `pending → running`, or
`running → {completed | failed}`; anything else reverts or skips. -/
def statusStep (a b : Status) : Prop :=
  a = b ∨ (a = Status.pending ∧ b = Status.running)
    ∨ (a = Status.running ∧ (b = Status.completed ∨ b = Status.failed))

instance (a b : Status) : Decidable (statusStep a b) := by
  unfold statusStep; infer_instance

/-! ### Claim C3 -/

/-- **C3**: under the completion-service contract of §4.3 (the extraction
prompt returns 3–5 valid claims for a non-degraded narrative), the claim list
kept by the ClaimExtractor has length 0 or 3–5 — never 1 or 2 — it is empty
exactly when the research output is the degraded marker, and each kept entry
comes from a parsed entry with a statement and a valid importance value in
`{high, medium, low}`. -/
theorem claims_length_policy (research_output : List Char) (parsed : List RawEntry)
    (hcontract : research_output ≠ insufficientMarker →
      3 ≤ (parsed.filterMap validateEntry).length
        ∧ (parsed.filterMap validateEntry).length ≤ 5) :
    ((extract_key_claims research_output parsed).length = 0
        ∨ (3 ≤ (extract_key_claims research_output parsed).length
            ∧ (extract_key_claims research_output parsed).length ≤ 5))
    ∧ (extract_key_claims research_output parsed).length ≠ 1
    ∧ (extract_key_claims research_output parsed).length ≠ 2
    ∧ ((extract_key_claims research_output parsed).length = 0
        ↔ research_output = insufficientMarker)
    ∧ ∀ c ∈ extract_key_claims research_output parsed,
        ∃ e ∈ parsed, e.claim = some c.statement
          ∧ ∃ s, e.importance = some s ∧ parseImportance s = some c.importance := by
  by_cases hro : research_output = insufficientMarker
  · rw [extract_key_claims, if_pos hro]
    refine ⟨Or.inl rfl, by decide, by decide, by simpa using hro, ?_⟩
    intro c hc
    cases hc
  · rw [extract_key_claims, if_neg hro]
    obtain ⟨h₃, h₅⟩ := hcontract hro
    refine ⟨Or.inr ⟨h₃, h₅⟩, by omega, by omega, ?_, ?_⟩
    · constructor
      · intro h; omega
      · intro h; exact absurd h hro
    · intro c hc
      obtain ⟨e, he, hev⟩ := List.mem_filterMap.mp hc
      refine ⟨e, he, ?_⟩
      unfold validateEntry at hev
      rcases hcl : e.claim with _ | s <;> rcases him : e.importance with _ | imp <;>
        rw [hcl, him] at hev
      · exact absurd hev (by change (none : Option Claim) ≠ some c; exact Option.noConfusion)
      · exact absurd hev (by change (none : Option Claim) ≠ some c; exact Option.noConfusion)
      · exact absurd hev (by change (none : Option Claim) ≠ some c; exact Option.noConfusion)
      · change Option.map (fun i => ({ statement := s, importance := i } : Claim))
          (parseImportance imp) = some c at hev
        obtain ⟨i, hpi, hci⟩ := Option.map_eq_some'.mp hev
        refine ⟨?_, imp, rfl, ?_⟩
        · rw [← hci]
        · rw [hpi, ← hci]

/-- Witness for C3: a non-degraded narrative whose parsed completion output
holds three valid entries and one malformed one (invalid importance), and
degraded behaviour on the marker is covered by the theorem's iff. -/
theorem claims_length_policy_witness :
    (("good narrative").data ≠ insufficientMarker →
      3 ≤ (([{ claim := some ("a").data, importance := some ("high").data },
             { claim := some ("b").data, importance := some ("urgent").data },
             { claim := some ("c").data, importance := some ("medium").data },
             { claim := some ("d").data, importance := some ("low").data }] :
              List RawEntry).filterMap validateEntry).length
        ∧ (([{ claim := some ("a").data, importance := some ("high").data },
             { claim := some ("b").data, importance := some ("urgent").data },
             { claim := some ("c").data, importance := some ("medium").data },
             { claim := some ("d").data, importance := some ("low").data }] :
              List RawEntry).filterMap validateEntry).length ≤ 5)
    ∧ (((extract_key_claims ("good narrative").data
          [{ claim := some ("a").data, importance := some ("high").data },
           { claim := some ("b").data, importance := some ("urgent").data },
           { claim := some ("c").data, importance := some ("medium").data },
           { claim := some ("d").data, importance := some ("low").data }]).length = 0
        ∨ (3 ≤ (extract_key_claims ("good narrative").data
            [{ claim := some ("a").data, importance := some ("high").data },
             { claim := some ("b").data, importance := some ("urgent").data },
             { claim := some ("c").data, importance := some ("medium").data },
             { claim := some ("d").data, importance := some ("low").data }]).length
            ∧ (extract_key_claims ("good narrative").data
                [{ claim := some ("a").data, importance := some ("high").data },
                 { claim := some ("b").data, importance := some ("urgent").data },
                 { claim := some ("c").data, importance := some ("medium").data },
                 { claim := some ("d").data, importance := some ("low").data }]).length ≤ 5))
      ∧ (extract_key_claims ("good narrative").data
          [{ claim := some ("a").data, importance := some ("high").data },
           { claim := some ("b").data, importance := some ("urgent").data },
           { claim := some ("c").data, importance := some ("medium").data },
           { claim := some ("d").data, importance := some ("low").data }]).length ≠ 1
      ∧ (extract_key_claims ("good narrative").data
          [{ claim := some ("a").data, importance := some ("high").data },
           { claim := some ("b").data, importance := some ("urgent").data },
           { claim := some ("c").data, importance := some ("medium").data },
           { claim := some ("d").data, importance := some ("low").data }]).length ≠ 2
      ∧ ((extract_key_claims ("good narrative").data
          [{ claim := some ("a").data, importance := some ("high").data },
           { claim := some ("b").data, importance := some ("urgent").data },
           { claim := some ("c").data, importance := some ("medium").data },
           { claim := some ("d").data, importance := some ("low").data }]).length = 0
          ↔ ("good narrative").data = insufficientMarker)
      ∧ ∀ c ∈ extract_key_claims ("good narrative").data
          [{ claim := some ("a").data, importance := some ("high").data },
           { claim := some ("b").data, importance := some ("urgent").data },
           { claim := some ("c").data, importance := some ("medium").data },
           { claim := some ("d").data, importance := some ("low").data }],
          ∃ e ∈ ([{ claim := some ("a").data, importance := some ("high").data },
                  { claim := some ("b").data, importance := some ("urgent").data },
                  { claim := some ("c").data, importance := some ("medium").data },
                  { claim := some ("d").data, importance := some ("low").data }] :
                   List RawEntry),
            e.claim = some c.statement
              ∧ ∃ s, e.importance = some s ∧ parseImportance s = some c.importance) :=
  ⟨by decide,
   claims_length_policy ("good narrative").data
     [{ claim := some ("a").data, importance := some ("high").data },
      { claim := some ("b").data, importance := some ("urgent").data },
      { claim := some ("c").data, importance := some ("medium").data },
      { claim := some ("d").data, importance := some ("low").data }]
     (by decide)⟩

/-! ### Claim C4 -/

/-- **C4**: for every non-empty `original_query`, the QueryOptimizer output
is non-empty — when the completion service returns an empty or
whitespace-only result, the stage falls back to `original_query` unchanged. -/
theorem optimized_query_nonempty (original_query completion : List Char)
    (h : original_query ≠ []) :
    optimize_query_stage original_query completion ≠ []
    ∧ (stripChars completion = [] →
        optimize_query_stage original_query completion = original_query) := by
  unfold optimize_query_stage
  by_cases hc : stripChars completion = []
  · rw [if_pos hc]
    exact ⟨h, fun _ => rfl⟩
  · rw [if_neg hc]
    refine ⟨?_, fun hcc => absurd hcc hc⟩
    intro hne
    apply hc
    rw [hne]
    rfl

/-- Witness for C4: a whitespace-only completion falls back to the original
query. -/
theorem optimized_query_nonempty_witness :
    ("remote work productivity").data ≠ []
    ∧ optimize_query_stage ("remote work productivity").data ("  \n\t ").data ≠ []
    ∧ (stripChars ("  \n\t ").data = [] →
        optimize_query_stage ("remote work productivity").data ("  \n\t ").data
          = ("remote work productivity").data) :=
  ⟨by decide,
   (optimized_query_nonempty ("remote work productivity").data ("  \n\t ").data (by decide)).1,
   (optimized_query_nonempty ("remote work productivity").data ("  \n\t ").data (by decide)).2⟩

/-! ### Claim C2 -/

/-- In the fan-out output, looking up the tag `i` finds exactly claim `i`'s
result, whatever the completion order, as long as the order lists valid
distinct indices including `i`. -/
lemma find?_fanout (claims : List Claim) (verify : Claim → VerificationResult) (i : Nat) :
    ∀ order : List Nat, (∀ j ∈ order, j < claims.length) → order.Nodup → i ∈ order →
      (verify_claims_fanout verify claims order).find? (fun p => p.1 == i)
        = (claims.get? i).map fun c => (i, verify c) := by
  intro order
  induction order with
  | nil => intro _ _ hi; cases hi
  | cons j rest ih =>
    intro hval hnd hi
    have hj : j < claims.length := hval j (List.mem_cons_self j rest)
    have hcj : claims.get? j = some (claims.get ⟨j, hj⟩) := List.get?_eq_get hj
    rw [verify_claims_fanout]
    simp only [List.filterMap_cons, hcj, Option.map_some']
    by_cases hji : j = i
    · subst hji
      rw [List.find?_cons_of_pos _ (by simp)]
      rw [hcj]
      rfl
    · rw [List.find?_cons_of_neg _ (by simp [hji])]
      have hrest : i ∈ rest := by
        rcases List.mem_cons.mp hi with rfl | h
        · exact absurd rfl hji
        · exact h
      exact ih (fun k hk => hval k (List.mem_cons_of_mem j hk)) (List.nodup_cons.mp hnd).2 hrest

/-- Gathering `l.get?` over `range l.length` is `l.map`. -/
lemma filterMap_get?_range {α β : Type} (l : List α) (h : α → β) :
    (List.range l.length).filterMap (fun i => (l.get? i).map h) = l.map h := by
  induction l with
  | nil => rfl
  | cons x xs ih =>
    rw [List.length_cons, List.range_succ_eq_map, List.filterMap_cons, List.filterMap_map]
    have hcomp : ((fun i => ((x :: xs).get? i).map h) ∘ Nat.succ) = fun i => (xs.get? i).map h :=
      rfl
    rw [hcomp, ih]
    rfl

/-- **C2**: whatever order the concurrent verification tasks complete in (any
permutation of the claim indices), the fan-in re-sorts the tagged results so
that `verification_results` equals the per-claim verification mapped over
`claims` — equal length and index-aligned. -/
theorem verification_results_index_aligned (verify : Claim → VerificationResult)
    (claims : List Claim) (order : List Nat)
    (hperm : order.Perm (List.range claims.length)) :
    fanin claims (verify_claims_fanout verify claims order) = claims.map verify := by
  have hval : ∀ j ∈ order, j < claims.length := fun j hj =>
    List.mem_range.mp (hperm.mem_iff.mp hj)
  have hnd : order.Nodup := hperm.nodup_iff.mpr (List.nodup_range _)
  have hmem : ∀ i, i < claims.length → i ∈ order := fun i hi =>
    hperm.mem_iff.mpr (List.mem_range.mpr hi)
  unfold fanin
  have hcong : ∀ i ∈ List.range claims.length,
      ((verify_claims_fanout verify claims order).find? (fun p => p.1 == i)).map
          (fun p => p.2)
        = (claims.get? i).map fun c => verify c := by
    intro i hi
    rw [find?_fanout claims verify i order hval hnd (hmem i (List.mem_range.mp hi))]
    cases claims.get? i <;> rfl
  rw [List.filterMap_congr hcong, filterMap_get?_range]

/-- Witness for C2: three claims whose verification tasks complete in the
order 2, 0, 1 still store index-aligned results. -/
theorem verification_results_index_aligned_witness :
    ([2, 0, 1] : List Nat).Perm
        (List.range ([{ statement := ("a").data, importance := Importance.high },
                      { statement := ("b").data, importance := Importance.low },
                      { statement := ("c").data, importance := Importance.medium }] :
                       List Claim).length)
    ∧ fanin
        [{ statement := ("a").data, importance := Importance.high },
         { statement := ("b").data, importance := Importance.low },
         { statement := ("c").data, importance := Importance.medium }]
        (verify_claims_fanout
          (fun c => { claim := c.statement, reliability_score := 7, issues := [],
                      verification_sources := [], verification_data := [] })
          [{ statement := ("a").data, importance := Importance.high },
           { statement := ("b").data, importance := Importance.low },
           { statement := ("c").data, importance := Importance.medium }]
          [2, 0, 1])
      = ([{ statement := ("a").data, importance := Importance.high },
          { statement := ("b").data, importance := Importance.low },
          { statement := ("c").data, importance := Importance.medium }] : List Claim).map
          fun c => { claim := c.statement, reliability_score := 7, issues := [],
                     verification_sources := [], verification_data := [] } :=
  ⟨by decide,
   verification_results_index_aligned
     (fun c => { claim := c.statement, reliability_score := 7, issues := [],
                 verification_sources := [], verification_data := [] })
     [{ statement := ("a").data, importance := Importance.high },
      { statement := ("b").data, importance := Importance.low },
      { statement := ("c").data, importance := Importance.medium }]
     [2, 0, 1] (by decide)⟩

/-! ### Lemmas about the failure-recovering verifier -/

lemma verifyFrom_length (verify : Claim → VerificationResult) (fails : Nat → Bool) :
    ∀ (claims : List Claim) (k : Nat),
      (verifyFrom verify fails k claims).length = claims.length := by
  intro claims
  induction claims with
  | nil => intro k; rfl
  | cons c rest ih => intro k; simp [verifyFrom, ih (k + 1)]

lemma verifyFrom_get? (verify : Claim → VerificationResult) (fails : Nat → Bool) :
    ∀ (claims : List Claim) (k i : Nat),
      (verifyFrom verify fails k claims).get? i
        = (claims.get? i).map fun c => if fails (k + i) then sentinelResult c else verify c := by
  intro claims
  induction claims with
  | nil => intro k i; simp [verifyFrom]
  | cons c rest ih =>
    intro k i
    cases i with
    | zero => simp [verifyFrom]
    | succ i =>
      rw [verifyFrom]
      simp only [List.get?_cons_succ]
      rw [ih (k + 1) i]
      have h : k + 1 + i = k + (i + 1) := by omega
      rw [h]

/-! ### The successful run -/

/-- When search, report generation and drafting all succeed, the pipeline
runs every stage and produces exactly the stage outputs, with
`status = completed`. -/
lemma runPipeline_ok (ext : ExternalBehavior) (st0 : ResearchState) (r d : List Char)
    (hre : ext.research_error = none) (hrep : ext.report_completion = Except.ok r)
    (hd : ext.draft_completion = Except.ok d) :
    runPipeline ext st0 =
      { query := st0.query
        optimized_query := optimize_query_stage st0.query ext.optimize_completion
        research_output := conduct_research ext.search_results ext.summary_completion
        claims := extract_key_claims
          (conduct_research ext.search_results ext.summary_completion) ext.claims_parsed
        verification_results := verify_claims_with_failures ext.verify ext.fails
          (extract_key_claims
            (conduct_research ext.search_results ext.summary_completion) ext.claims_parsed)
        references := extract_references
          (verify_claims_with_failures ext.verify ext.fails
            (extract_key_claims
              (conduct_research ext.search_results ext.summary_completion) ext.claims_parsed))
        fact_check_report := r
        content_style := st0.content_style
        draft_content := d
        status := Status.completed } := by
  simp [runPipeline, research_workflow, runStages, optimize_stage, research_stage,
    claims_stage, verify_stage, report_stage, draft_stage, create_draft_content,
    hre, hrep, hd]

/-! ### Claim C5 -/

/-- **C5**: when the search service returns zero results for the general
research query (and the run is otherwise healthy), the ResearchGatherer does
not fabricate content — `research_output` is exactly the degraded
"insufficient source material" marker, the run still completes, and `claims`
is empty. -/
theorem degraded_search_yields_marker (ext : ExternalBehavior) (st0 : ResearchState)
    (r d : List Char) (hs : ext.search_results = [])
    (hre : ext.research_error = none) (hrep : ext.report_completion = Except.ok r)
    (hd : ext.draft_completion = Except.ok d) :
    (runPipeline ext st0).research_output = insufficientMarker
    ∧ (runPipeline ext st0).claims = []
    ∧ (runPipeline ext st0).status = Status.completed := by
  rw [runPipeline_ok ext st0 r d hre hrep hd]
  refine ⟨?_, ?_, rfl⟩
  · simp [conduct_research, hs]
  · simp [conduct_research, hs, extract_key_claims]

/-! ### Claim C6 -/

/-- **C6**: claims whose verification fails irrecoverably get the sentinel
result (`reliability_score = -1`, a non-empty `issues` entry) in their own
slot, every other claim still gets its judged result, and the run still
reaches `completed`. -/
theorem per_claim_failure_isolated (ext : ExternalBehavior) (st0 : ResearchState)
    (r d : List Char) (hre : ext.research_error = none)
    (hrep : ext.report_completion = Except.ok r) (hd : ext.draft_completion = Except.ok d) :
    (runPipeline ext st0).status = Status.completed
    ∧ (runPipeline ext st0).verification_results.length = (runPipeline ext st0).claims.length
    ∧ ∀ i, i < (runPipeline ext st0).claims.length →
        (ext.fails i = true →
          ∃ v, (runPipeline ext st0).verification_results.get? i = some v
            ∧ v.reliability_score = -1 ∧ v.issues ≠ [])
        ∧ (ext.fails i = false →
            (runPipeline ext st0).verification_results.get? i
              = ((runPipeline ext st0).claims.get? i).map ext.verify) := by
  rw [runPipeline_ok ext st0 r d hre hrep hd]
  refine ⟨rfl, verifyFrom_length ext.verify ext.fails _ 0, ?_⟩
  intro i hi
  constructor
  · intro hf
    have hget := List.get?_eq_get hi
    refine ⟨sentinelResult (List.get _ ⟨i, hi⟩), ?_, rfl, by simp [sentinelResult]⟩
    show (verify_claims_with_failures ext.verify ext.fails _).get? i = _
    rw [verify_claims_with_failures, verifyFrom_get?, hget]
    simp [hf]
  · intro hf
    show (verify_claims_with_failures ext.verify ext.fails _).get? i = _
    rw [verify_claims_with_failures, verifyFrom_get?]
    cases (extract_key_claims
        (conduct_research ext.search_results ext.summary_completion) ext.claims_parsed).get? i
      <;> simp [hf]

/-! ### Claim C7 -/

/-- **C7**: the status only ever steps along
`pending → running → {completed | failed}` (never reverting); it reaches
`completed` exactly when every stage, the terminal ContentDrafter included,
returns successfully; and a fatal error marks the run failed with no stage
after the failing one executing (the workflow has 6 stages; research is the
2nd, report the 5th, drafting the 6th). -/
theorem pipeline_status_discipline (ext : ExternalBehavior) (st0 : ResearchState)
    (h0 : st0.status = Status.pending) :
    List.Chain' statusStep (pipelineTrace ext st0)
    ∧ ((runPipeline ext st0).status = Status.completed ↔
        ext.research_error = none
        ∧ (∃ r, ext.report_completion = Except.ok r)
        ∧ ∃ d, ext.draft_completion = Except.ok d)
    ∧ (∀ e, ext.research_error = some e →
        (runPipeline ext st0).status = Status.failed ∧ pipelineStagesExecuted ext st0 = 2)
    ∧ (∀ e, ext.research_error = none → ext.report_completion = Except.error e →
        (runPipeline ext st0).status = Status.failed ∧ pipelineStagesExecuted ext st0 = 5)
    ∧ ∀ e r, ext.research_error = none → ext.report_completion = Except.ok r →
        ext.draft_completion = Except.error e →
        (runPipeline ext st0).status = Status.failed ∧ pipelineStagesExecuted ext st0 = 6 := by
  rcases hre : ext.research_error with _ | e₀ <;>
    rcases hrep : ext.report_completion with e₁ | r₀ <;>
    rcases hd : ext.draft_completion with e₂ | d₀ <;>
    refine ⟨?_, ?_, ?_, ?_, ?_⟩ <;>
    simp [pipelineTrace, runPipeline, pipelineStagesExecuted, research_workflow, runStages,
      statusTrace, stagesExecuted, optimize_stage, research_stage, claims_stage, verify_stage,
      report_stage, draft_stage, create_draft_content, hre, hrep, hd, h0, statusStep]

/-! ### Concrete sample run used by the pipeline witnesses -/

/-- A healthy external behaviour: one search result, three parsed claims,
claim 1's verification failing irrecoverably, report and draft succeeding. -/
def sampleExt : ExternalBehavior :=
  { optimize_completion := ("optimized remote work query").data
    research_error := none
    search_results :=
      [{ url := ("https://a.com/x").data, title := ("t").data, content := ("c").data }]
    summary_completion := ("research narrative").data
    claims_parsed :=
      [{ claim := some ("a").data, importance := some ("high").data },
       { claim := some ("b").data, importance := some ("medium").data },
       { claim := some ("c").data, importance := some ("low").data }]
    verify := fun c =>
      { claim := c.statement, reliability_score := 7, issues := []
        verification_sources := [("https://a.com/x").data]
        verification_data := ("Source: https://a.com/x").data }
    fails := fun i => i == 1
    report_completion := Except.ok ("fact check report").data
    draft_completion := Except.ok ("draft content").data }

/-- A fresh `ResearchState` as created at run start: only the query and the
content style set, `status = pending`. -/
def initialState : ResearchState :=
  { query := ("effects of remote work on productivity").data
    optimized_query := []
    research_output := []
    claims := []
    verification_results := []
    references := []
    fact_check_report := []
    content_style := ("report").data
    draft_content := []
    status := Status.pending }

/-- Witness for C5: the sample run with zero search results completes with
the degraded marker and no claims. -/
theorem degraded_search_yields_marker_witness :
    ({ sampleExt with search_results := [] } : ExternalBehavior).search_results = []
    ∧ ({ sampleExt with search_results := [] } : ExternalBehavior).research_error = none
    ∧ ((runPipeline { sampleExt with search_results := [] } initialState).research_output
          = insufficientMarker
        ∧ (runPipeline { sampleExt with search_results := [] } initialState).claims = []
        ∧ (runPipeline { sampleExt with search_results := [] } initialState).status
          = Status.completed) :=
  ⟨rfl, rfl,
   degraded_search_yields_marker { sampleExt with search_results := [] } initialState
     (("fact check report").data) (("draft content").data) rfl rfl rfl rfl⟩

/-- Witness for C6: in the sample run claim 1's verification fails; its slot
gets the sentinel, the other slots their judged results, and the run
completes. -/
theorem per_claim_failure_isolated_witness :
    sampleExt.research_error = none
    ∧ ((runPipeline sampleExt initialState).status = Status.completed
        ∧ (runPipeline sampleExt initialState).verification_results.length
          = (runPipeline sampleExt initialState).claims.length
        ∧ ∀ i, i < (runPipeline sampleExt initialState).claims.length →
            (sampleExt.fails i = true →
              ∃ v, (runPipeline sampleExt initialState).verification_results.get? i = some v
                ∧ v.reliability_score = -1 ∧ v.issues ≠ [])
            ∧ (sampleExt.fails i = false →
                (runPipeline sampleExt initialState).verification_results.get? i
                  = ((runPipeline sampleExt initialState).claims.get? i).map
                      sampleExt.verify)) :=
  ⟨rfl,
   per_claim_failure_isolated sampleExt initialState
     (("fact check report").data) (("draft content").data) rfl rfl rfl⟩

/-- Witness for C7: the status discipline instantiated on the sample run from
a pending initial state. -/
theorem pipeline_status_discipline_witness :
    initialState.status = Status.pending
    ∧ (List.Chain' statusStep (pipelineTrace sampleExt initialState)
        ∧ ((runPipeline sampleExt initialState).status = Status.completed ↔
            sampleExt.research_error = none
            ∧ (∃ r, sampleExt.report_completion = Except.ok r)
            ∧ ∃ d, sampleExt.draft_completion = Except.ok d)
        ∧ (∀ e, sampleExt.research_error = some e →
            (runPipeline sampleExt initialState).status = Status.failed
              ∧ pipelineStagesExecuted sampleExt initialState = 2)
        ∧ (∀ e, sampleExt.research_error = none →
            sampleExt.report_completion = Except.error e →
            (runPipeline sampleExt initialState).status = Status.failed
              ∧ pipelineStagesExecuted sampleExt initialState = 5)
        ∧ ∀ e r, sampleExt.research_error = none →
            sampleExt.report_completion = Except.ok r →
            sampleExt.draft_completion = Except.error e →
            (runPipeline sampleExt initialState).status = Status.failed
              ∧ pipelineStagesExecuted sampleExt initialState = 6) :=
  ⟨rfl, pipeline_status_discipline sampleExt initialState rfl⟩

end DeepWebResearcher
